import Mathlib

/-!
# LightsService JNI bridge: `com_android_server_lights_LightsService.cpp`

A shallow embedding of the native half of the lights service: the parameter
validator `validate`, the state constructor `constructState`, the diagnostic
mapper `processReturn` and the dispatcher `setLight_native`, which hands a
light request to the first applicable backend in the chain
Samsung `ISecLight`, Samsung `ISehLight`, Huawei `ILight`, generic `ILight`.

Conventions of the embedding.

* A `jint` is a 32-bit signed integer.  The parameters are `Int`s.  The only
  arithmetic the file performs on them is comparison with small constants and
  `(colorARGB & 0xff) << 4`, which cannot overflow, so every definition below
  agrees with the C++ on the whole `jint` range and the theorems, which hold
  for all `Int`s, hold in particular for all `jint`s.
* The `enum class` types `Type`, `Flash`, `Brightness`, `Status`, `SecType`
  and `SehType` have a fixed 32-bit underlying type; a `static_cast` from `jint`
  keeps the number.  Enum values are therefore `Int`s, with named constants.
* The file-level statics (`sLightSupported`, `sSecHal`, ...) are the fields of
  `Dispatcher`; a call of `setLight_native` maps a `Dispatcher` to the next one.
* Everything the outside world decides during one call (what each
  `getService()` returns, what each backend answers, how long the call took)
  is a field of `Env`.
* Everything the call does to the outside world is recorded, in program
  order, as a list of `Event`s: service resolutions, backend queries, set-light
  commands and log lines.
-/

namespace LightsService

/-! ## Constants of the HAL headers -/

/-- Modelled from the spec: `Type::BACKLIGHT`, declared in the generic light
HAL header `android/hardware/light/2.0/types.h`; the spec lists the backlight
first among the eight light ids, at index 0. -/
def LightType.BACKLIGHT : Int := 0

/-- Modelled from the spec: `Type::COUNT`, declared in the generic light HAL
header; the spec enumerates eight lights (backlight, keyboard, buttons,
battery, notifications, attention, bluetooth, wifi) "bounded by a count
constant", so the ids are 0..7 and the count is 8. -/
def LightType.COUNT : Int := 8

/-- Modelled from the spec: `Flash::NONE`, declared in the generic light HAL
header; the spec lists the flash modes as none/timed/hardware. -/
def Flash.NONE : Int := 0

/-- Modelled from the spec: `Flash::TIMED`, declared in the generic light HAL
header. -/
def Flash.TIMED : Int := 1

/-- Modelled from the spec: `Flash::HARDWARE`, declared in the generic light
HAL header. -/
def Flash.HARDWARE : Int := 2

/-- Modelled from the spec: `Brightness::USER`, declared in the generic light
HAL header; the spec lists the brightness modes as
user/sensor/low-persistence. -/
def Brightness.USER : Int := 0

/-- Modelled from the spec: `Brightness::SENSOR`, declared in the generic
light HAL header. -/
def Brightness.SENSOR : Int := 1

/-- Modelled from the spec: `Brightness::LOW_PERSISTENCE`, declared in the
generic light HAL header. -/
def Brightness.LOW_PERSISTENCE : Int := 2

/-- Modelled from the spec: `Status::SUCCESS`, declared in the generic light
HAL header; the spec lists the status codes as success, light not supported,
brightness not supported, unknown error. -/
def Status.SUCCESS : Int := 0

/-- Modelled from the spec: `Status::LIGHT_NOT_SUPPORTED`, declared in the
generic light HAL header. -/
def Status.LIGHT_NOT_SUPPORTED : Int := 1

/-- Modelled from the spec: `Status::BRIGHTNESS_NOT_SUPPORTED`, declared in
the generic light HAL header. -/
def Status.BRIGHTNESS_NOT_SUPPORTED : Int := 2

/-- Modelled from the spec: `Status::UNKNOWN`, declared in the generic light
HAL header. -/
def Status.UNKNOWN : Int := 3

/-! ## Data model -/

/-- Modelled from the spec: the record `LightState` of the generic light HAL
header ("the tuple of color, flash mode/timing, and brightness mode sent to a
backend").  Each field is a 32-bit word; a word is represented by the `jint`
that was stored into it.  `LightState state{}` value-initialises every field
to zero. -/
structure LightState where
  color : Int := 0
  flashMode : Int := 0
  flashOnMs : Int := 0
  flashOffMs : Int := 0
  brightnessMode : Int := 0
deriving DecidableEq, Repr

/-- Modelled from the spec: the record `SehLightState` of the Samsung 3.0
light HAL header: a light state with, in addition, the "extended brightness"
scalar.  `SehLightState state {}` value-initialises every field to zero. -/
structure SehLightState where
  color : Int := 0
  flashMode : Int := 0
  flashOnMs : Int := 0
  flashOffMs : Int := 0
  brightnessMode : Int := 0
  extendedBrightness : Int := 0
deriving DecidableEq, Repr

/-- A non-null `sp<...>` service handle; `Option Handle` is an `sp` that may
be `nullptr`. -/
abbrev Handle := Nat

/-- A HIDL `Return<T>`: either the transaction completed and carries a value
(`isOk()` is true), or the transport failed. -/
inductive Return (α : Type) where
  | ok (value : α)
  | transportError
deriving DecidableEq, Repr

/-- The test `ret.isOk()`. -/
def Return.isOk {α : Type} : Return α → Bool
  | .ok _ => true
  | .transportError => false

/-- The log lines the file can write (`ALOGE`, `ALOGD`), with their
arguments. -/
inductive Log where
  /-- Line "Invalid light parameter %d." -/
  | invalidLight (light : Int)
  /-- Line "Invalid flash parameter %d." -/
  | invalidFlash (flash : Int)
  /-- Line "Invalid brightness parameter %d." -/
  | invalidBrightness (brightness : Int)
  /-- Line "Cannot set low-persistence mode for non-backlight device." -/
  | lowPersistenceNonBacklight
  /-- Line "Failed to issue set light command." -/
  | failedToIssue
  /-- Line "Light requested not available on this device. %d" -/
  | lightNotAvailable (type : Int)
  /-- Line "Brightness parameter not supported on this device: %d" -/
  | brightnessNotSupported (brightnessMode : Int)
  /-- Line "Unknown error setting light." -/
  | unknownError
  /-- Line "Excessive delay setting light" -/
  | excessiveDelay
  /-- Line "sHwHal triggered!" -/
  | hwHalTriggered
  /-- Line "sHwHal reports 260 as a supported type" -/
  | hwReports260
deriving DecidableEq, Repr

/-- What one call does to the outside world. -/
inductive Event where
  /-- Call of `ISecLight::getService()`. -/
  | getServiceSec
  /-- Call of `ISehLight::getService()`. -/
  | getServiceSeh
  /-- Call of `ILightHw::getService()`. -/
  | getServiceHw
  /-- Call of `ILight::getService()`. -/
  | getService
  /-- Call of `sSecHal->setLightSec(type, state)` -/
  | setLightSec (hal : Handle) (type : Int) (state : LightState)
  /-- Call of `sSehHal->sehSetLight(type, state)` -/
  | sehSetLight (hal : Handle) (type : Int) (state : SehLightState)
  /-- Call of `sHwHal->HWgetSupportedTypes(callback)` -/
  | HWgetSupportedTypes (hal : Handle)
  /-- Call of `sHwHal->HWsetLight(type, state)` -/
  | HWsetLight (hal : Handle) (type : Int) (state : LightState)
  /-- Call of `hal->setLight(type, state)` on the generic service -/
  | setLight (hal : Handle) (type : Int) (state : LightState)
  /-- A line written to the log. -/
  | log (line : Log)
deriving DecidableEq, Repr

/-- The file-level statics. -/
structure Dispatcher where
  sLightSupported : Bool
  sSecHal : Option Handle
  sSehHal : Option Handle
  sSecTried : Bool
  sHwHal : Option Handle
  sHwTried : Bool
deriving DecidableEq, Repr

/-- The statics as initialised at load time: `sLightSupported = true`, the
tried flags false and every handle null. -/
def Dispatcher.initial : Dispatcher :=
  { sLightSupported := true, sSecHal := none, sSehHal := none,
    sSecTried := false, sHwHal := none, sHwTried := false }

/-- The behaviour of the outside world during one call. -/
structure Env where
  /-- The result of `ISecLight::getService()`. -/
  getServiceSec : Option Handle
  /-- The result of `ISehLight::getService()`. -/
  getServiceSeh : Option Handle
  /-- The result of `ILightHw::getService()`. -/
  getServiceHw : Option Handle
  /-- The result of `ILight::getService()`. -/
  getService : Option Handle
  /-- The answer of the Samsung 2.0 service to `setLightSec(type, state)`. -/
  setLightSec : Int → LightState → Return Int
  /-- The answer of the Samsung 3.0 service to `sehSetLight(type, state)`. -/
  sehSetLight : Int → SehLightState → Return Int
  /-- The list the Huawei service hands to the callback of
  `HWgetSupportedTypes`; `none` when the transaction fails and the callback is
  never run. -/
  HWgetSupportedTypes : Option (List Int)
  /-- The answer of the Huawei service to `HWsetLight(type, state)`. -/
  HWsetLight : Int → LightState → Return Int
  /-- The answer of the generic service to `setLight(type, state)`. -/
  setLight : Int → LightState → Return Int
  /-- What `android::base::Timer::duration()` reads at the end of the timed
  block, in milliseconds. -/
  duration : Nat

/-! ## The functions of the file -/

/-- Function `validate(light, flash, brightness)`: the returned flag together
with the lines it logs.  Four independent checks, each of which can clear
`valid`. -/
def validate (light flash brightness : Int) : Bool × List Log := Id.run do
  let mut valid := true
  let mut out : List Log := []
  if light < 0 || light >= LightType.COUNT then
    out := out ++ [Log.invalidLight light]
    valid := false
  if flash != Flash.NONE && flash != Flash.TIMED && flash != Flash.HARDWARE then
    out := out ++ [Log.invalidFlash flash]
    valid := false
  if brightness != Brightness.USER && brightness != Brightness.SENSOR &&
      brightness != Brightness.LOW_PERSISTENCE then
    out := out ++ [Log.invalidBrightness brightness]
    valid := false
  if brightness == Brightness.LOW_PERSISTENCE && light != LightType.BACKLIGHT then
    out := out ++ [Log.lowPersistenceNonBacklight]
    valid := false
  return (valid, out)

/-- Function `constructState(colorARGB, flashMode, onMS, offMS, brightnessMode)`. -/
def constructState (colorARGB flashMode onMS offMS brightnessMode : Int) : LightState :=
  let flash := flashMode
  let brightness := brightnessMode
  let state : LightState := {}
  let state :=
    if brightness = Brightness.LOW_PERSISTENCE then
      { state with flashMode := Flash.NONE }
    else
      { state with flashMode := flash, flashOnMs := onMS, flashOffMs := offMS }
  let state := { state with color := colorARGB }
  let state := { state with brightnessMode := brightness }
  state

/-- Function `processReturn(ret, type, state)`: the lines it logs. -/
def processReturn (ret : Return Int) (type : Int) (state : LightState) : List Log :=
  match ret with
  | .transportError => [Log.failedToIssue]
  | .ok status =>
    if status = Status.SUCCESS then []
    else if status = Status.LIGHT_NOT_SUPPORTED then [Log.lightNotAvailable type]
    else if status = Status.BRIGHTNESS_NOT_SUPPORTED then
      [Log.brightnessNotSupported state.brightnessMode]
    else [Log.unknownError]

/-- The closing line of each timed block:
`if (t.duration() > 50ms) ALOGD("Excessive delay setting light")`. -/
def delayLog (env : Env) : List Log :=
  if env.duration > 50 then [Log.excessiveDelay] else []

/-- One iteration of the loop in the callback handed to
`HWgetSupportedTypes`: `if (type == 260) { ALOGE(...); got260 = true; }`, on
the pair of the flag `got260` and the lines logged so far. -/
def supportedTypesStep (acc : Bool × List Log) (type : Int) : Bool × List Log :=
  if type = 260 then (true, acc.2 ++ [Log.hwReports260]) else acc

/-- The body of the callback handed to `HWgetSupportedTypes`: the loop
`for (const auto& type: types)`, started with the captured flag `got260`; it
returns the flag and the lines logged. -/
def supportedTypesCallback (types : List Int) (got260 : Bool) : Bool × List Log :=
  types.foldl supportedTypesStep (got260, [])

/-- Function `setLight_native(light, colorARGB, flashMode, onMS, offMS,
brightnessMode)` (its JNI arguments `env` and `clazz` are unused), run on the
statics `statics` in the outside world `env`: the statics after the call and
the events of the call, in program order. -/
def setLight_native (env : Env) (statics : Dispatcher)
    (light colorARGB flashMode onMS offMS brightnessMode : Int) :
    Dispatcher × List Event := Id.run do
  let mut s := statics
  let mut tr : List Event := []
  if !s.sLightSupported then
    return (s, tr)
  let valid := validate light flashMode brightnessMode
  tr := tr ++ valid.2.map Event.log
  if !valid.1 then
    return (s, tr)
  if !s.sSecTried then
    tr := tr ++ [Event.getServiceSec]
    s := { s with sSecHal := env.getServiceSec }
    tr := tr ++ [Event.getServiceSeh]
    s := { s with sSehHal := env.getServiceSeh }
    -- sSecTried = true;   (commented out in the source)
  if let some sSecHal := s.sSecHal then
    let type := light
    let state := constructState colorARGB flashMode onMS offMS brightnessMode
    tr := tr ++ [Event.setLightSec sSecHal type state]
    let ret := env.setLightSec type state
    tr := tr ++ (processReturn ret light state).map Event.log
    tr := tr ++ (delayLog env).map Event.log
    return (s, tr)
  if let some sSehHal := s.sSehHal then
    if light == 0 && flashMode == Flash.HARDWARE then
      let type := light
      let state : SehLightState := {}
      let state := { state with flashMode := Flash.NONE }
      let brightness := brightnessMode
      let state := { state with brightnessMode := brightness }
      let state := { state with extendedBrightness := colorARGB }
      tr := tr ++ [Event.sehSetLight sSehHal type state]
      let ret := env.sehSetLight type state
      if !ret.isOk then
        tr := tr ++ [Event.log Log.failedToIssue]
      tr := tr ++ (delayLog env).map Event.log
      return (s, tr)
  if !s.sHwTried then
    tr := tr ++ [Event.getServiceHw]
    s := { s with sHwHal := env.getServiceHw }
    -- sHwTried = true;   (commented out in the source)
  if let some sHwHal := s.sHwHal then
    if light == 0 then
      tr := tr ++ [Event.log Log.hwHalTriggered]
      let brightness := Int.land colorARGB 0xff
      let hwBrightness := brightness <<< (4 : Int)
      let state := constructState hwBrightness flashMode onMS offMS brightnessMode
      let mut got260 := false
      tr := tr ++ [Event.HWgetSupportedTypes sHwHal]
      if let some types := env.HWgetSupportedTypes then
        let r := supportedTypesCallback types got260
        got260 := r.1
        tr := tr ++ r.2.map Event.log
      if got260 then
        tr := tr ++ [Event.HWsetLight sHwHal 260 state]
        return (s, tr)
  let type := light
  let state := constructState colorARGB flashMode onMS offMS brightnessMode
  tr := tr ++ [Event.getService]
  let hal := env.getService
  match hal with
  | none =>
    s := { s with sLightSupported := false }
    return (s, tr)
  | some hal =>
    tr := tr ++ [Event.setLight hal type state]
    let ret := env.setLight type state
    tr := tr ++ (processReturn ret type state).map Event.log
    tr := tr ++ (delayLog env).map Event.log
    return (s, tr)

/-- One call of `setLight_native` as the Java side makes it: the behaviour of
the outside world during the call and the six `jint` arguments. -/
structure Call where
  env : Env
  light : Int
  colorARGB : Int
  flashMode : Int
  onMS : Int
  offMS : Int
  brightnessMode : Int

/-- The call `c` made on the statics `s`. -/
def Call.exec (c : Call) (s : Dispatcher) : Dispatcher × List Event :=
  setLight_native c.env s c.light c.colorARGB c.flashMode c.onMS c.offMS c.brightnessMode

/-- A sequence of calls made one after the other (the statics are not
synchronised; calls are taken to be serialised): the final statics and the
events of each call. -/
def run (s : Dispatcher) : List Call → Dispatcher × List (List Event)
  | [] => (s, [])
  | c :: cs =>
    let r := c.exec s
    let rest := run r.1 cs
    (rest.1, r.2 :: rest.2)

/-! ## The body of `setLight_native` block by block

The same code as in `setLight_native`, cut at lines 162, 168, 201, 206 and 226,
so that each block can be reasoned about on its own. -/

/-- Lines 226-240 of `setLight_native` (the generic path) as a function of
the statics `s` and the trace `tr` at line 226. -/
def genericPath (env : Env) (s : Dispatcher) (tr : List Event)
    (light colorARGB flashMode onMS offMS brightnessMode : Int) : Dispatcher × List Event :=
  match env.getService with
  | none => ({ s with sLightSupported := false }, tr ++ [Event.getService])
  | some hal =>
    (s, tr ++ [Event.getService] ++
      [Event.setLight hal light (constructState colorARGB flashMode onMS offMS brightnessMode)] ++
      (processReturn
        (env.setLight light (constructState colorARGB flashMode onMS offMS brightnessMode)) light
        (constructState colorARGB flashMode onMS offMS brightnessMode)).map Event.log ++
      (delayLog env).map Event.log)

/-- Lines 206-240 of `setLight_native` (the Huawei path once `sHwHal` is
settled, then the generic path) as a function of the statics and the trace at
line 206. -/
def hwSend (env : Env) (s : Dispatcher) (tr : List Event)
    (light colorARGB flashMode onMS offMS brightnessMode : Int) : Dispatcher × List Event :=
  match s.sHwHal with
  | some sHwHal =>
    if light == 0 then
      match env.HWgetSupportedTypes with
      | some types =>
        if (supportedTypesCallback types false).1 then
          (s, tr ++ [Event.log Log.hwHalTriggered] ++ [Event.HWgetSupportedTypes sHwHal] ++
            (supportedTypesCallback types false).2.map Event.log ++
            [Event.HWsetLight sHwHal 260
              (constructState (Int.land colorARGB 0xff <<< (4 : Int)) flashMode onMS offMS
                brightnessMode)])
        else
          genericPath env s
            (tr ++ [Event.log Log.hwHalTriggered] ++ [Event.HWgetSupportedTypes sHwHal] ++
              (supportedTypesCallback types false).2.map Event.log)
            light colorARGB flashMode onMS offMS brightnessMode
      | _ =>
        genericPath env s
          (tr ++ [Event.log Log.hwHalTriggered] ++ [Event.HWgetSupportedTypes sHwHal])
          light colorARGB flashMode onMS offMS brightnessMode
    else genericPath env s tr light colorARGB flashMode onMS offMS brightnessMode
  | _ => genericPath env s tr light colorARGB flashMode onMS offMS brightnessMode

/-- Lines 201-240 of `setLight_native` (resolution of the Huawei service and
what follows) as a function of the statics and the trace at line 201. -/
def hwPath (env : Env) (s : Dispatcher) (tr : List Event)
    (light colorARGB flashMode onMS offMS brightnessMode : Int) : Dispatcher × List Event :=
  if !s.sHwTried then
    hwSend env { s with sHwHal := env.getServiceHw } (tr ++ [Event.getServiceHw])
      light colorARGB flashMode onMS offMS brightnessMode
  else hwSend env s tr light colorARGB flashMode onMS offMS brightnessMode

/-- Lines 168-240 of `setLight_native` (the two Samsung paths once `sSecHal`
and `sSehHal` are settled, and what follows) as a function of the statics and
the trace at line 168. -/
def vendorASend (env : Env) (s : Dispatcher) (tr : List Event)
    (light colorARGB flashMode onMS offMS brightnessMode : Int) : Dispatcher × List Event :=
  match s.sSecHal with
  | some sSecHal =>
    (s, tr ++ [Event.setLightSec sSecHal light
        (constructState colorARGB flashMode onMS offMS brightnessMode)] ++
      (processReturn
        (env.setLightSec light (constructState colorARGB flashMode onMS offMS brightnessMode))
        light (constructState colorARGB flashMode onMS offMS brightnessMode)).map Event.log ++
      (delayLog env).map Event.log)
  | _ =>
    match s.sSehHal with
    | some sSehHal =>
      if light == 0 && flashMode == Flash.HARDWARE then
        if !(env.sehSetLight light
              { flashMode := Flash.NONE, brightnessMode := brightnessMode,
                extendedBrightness := colorARGB }).isOk then
          (s, tr ++ [Event.sehSetLight sSehHal light
              { flashMode := Flash.NONE, brightnessMode := brightnessMode,
                extendedBrightness := colorARGB }] ++
            [Event.log Log.failedToIssue] ++ (delayLog env).map Event.log)
        else
          (s, tr ++ [Event.sehSetLight sSehHal light
              { flashMode := Flash.NONE, brightnessMode := brightnessMode,
                extendedBrightness := colorARGB }] ++
            (delayLog env).map Event.log)
      else hwPath env s tr light colorARGB flashMode onMS offMS brightnessMode
    | _ => hwPath env s tr light colorARGB flashMode onMS offMS brightnessMode

/-- Lines 162-240 of `setLight_native` (everything after the two guards) as
a function of the statics and the trace at line 162. -/
def vendorAPath (env : Env) (s : Dispatcher) (tr : List Event)
    (light colorARGB flashMode onMS offMS brightnessMode : Int) : Dispatcher × List Event :=
  if !s.sSecTried then
    vendorASend env { s with sSecHal := env.getServiceSec, sSehHal := env.getServiceSeh }
      (tr ++ [Event.getServiceSec] ++ [Event.getServiceSeh])
      light colorARGB flashMode onMS offMS brightnessMode
  else vendorASend env s tr light colorARGB flashMode onMS offMS brightnessMode

/-! ## Vocabulary for the statements -/

/-- Whether the event is a line of the log; every other event reaches out to
a backend service: it resolves one, queries one or sends a command to one. -/
def Event.isLog : Event → Bool
  | .log _ => true
  | _ => false

/-- Whether the event is a set-light command sent to a backend
(`setLightSec`, `sehSetLight`, `HWsetLight` or the generic `setLight`). -/
def Event.isCommand : Event → Bool
  | .setLightSec _ _ _ => true
  | .sehSetLight _ _ _ => true
  | .HWsetLight _ _ _ => true
  | .setLight _ _ _ => true
  | _ => false

/-- The events of a call that reach out to a backend (resolutions, queries
and commands), in order: the trace without its log lines. -/
def backendEvents (tr : List Event) : List Event :=
  tr.filter (fun e => !e.isLog)

/-- The set-light commands of a call, in order. -/
def commands (tr : List Event) : List Event :=
  tr.filter Event.isCommand

/-- Whether the Huawei service reports the type code 260: the callback of
`HWgetSupportedTypes` is run and the list it is given contains 260. -/
def reports260 (env : Env) : Bool :=
  match env.HWgetSupportedTypes with
  | some types => decide ((260 : Int) ∈ types)
  | none => false

/-- The order of the backend chain, read off a result `r` of a call (the
statics after the call, whose handles are the ones the call tested, and its
events): at most one set-light command was sent, and a backend was sent it only
if every backend before it in the order Samsung 2.0, Samsung 3.0 (light 0 with
hardware flash), Huawei (light 0 with type 260), generic was not applicable. -/
def chainOrder (env : Env) (light flashMode : Int) (r : Dispatcher × List Event) : Prop :=
  (commands r.2).length ≤ 1 ∧
  (∀ h t st, Event.setLightSec h t st ∈ r.2 → r.1.sSecHal = some h) ∧
  (∀ h t st, Event.sehSetLight h t st ∈ r.2 →
    r.1.sSecHal = none ∧ r.1.sSehHal = some h ∧ light = 0 ∧ flashMode = Flash.HARDWARE) ∧
  (∀ h t st, Event.HWsetLight h t st ∈ r.2 →
    r.1.sSecHal = none ∧
    ¬ (r.1.sSehHal ≠ none ∧ light = 0 ∧ flashMode = Flash.HARDWARE) ∧
    r.1.sHwHal = some h ∧ light = 0 ∧ reports260 env = true) ∧
  (∀ h t st, Event.setLight h t st ∈ r.2 →
    r.1.sSecHal = none ∧
    ¬ (r.1.sSehHal ≠ none ∧ light = 0 ∧ flashMode = Flash.HARDWARE) ∧
    ¬ (r.1.sHwHal ≠ none ∧ light = 0 ∧ reports260 env = true))

/-! ## The call without its log lines

Log lines never feed back into the control flow.  `outcome` is the call with
the log lines left out: the statics after the call and the backend events of
the call.  It is a derived form, proved equal to what `setLight_native`
computes in `setLight_native_outcome`; the claims are stated on
`setLight_native`. -/

/-- Put the events `evs` in front of the events of `r`. -/
def emit (evs : List Event) (r : Dispatcher × List Event) : Dispatcher × List Event :=
  (r.1, evs ++ r.2)

/-- The statics after a call and the backend events of the call. -/
def erase (r : Dispatcher × List Event) : Dispatcher × List Event :=
  (r.1, backendEvents r.2)

/-- The generic path (lines 226-240) without log lines. -/
def genericOutcome (env : Env) (s : Dispatcher)
    (light colorARGB flashMode onMS offMS brightnessMode : Int) : Dispatcher × List Event :=
  match env.getService with
  | none => ({ s with sLightSupported := false }, [Event.getService])
  | some hal =>
    (s, [Event.getService,
      Event.setLight hal light (constructState colorARGB flashMode onMS offMS brightnessMode)])

/-- The Huawei path with `sHwHal` settled, then the generic path (lines
206-240), without log lines. -/
def hwSendOutcome (env : Env) (s : Dispatcher)
    (light colorARGB flashMode onMS offMS brightnessMode : Int) : Dispatcher × List Event :=
  match s.sHwHal with
  | some sHwHal =>
    if light = 0 then
      if reports260 env then
        (s, [Event.HWgetSupportedTypes sHwHal,
          Event.HWsetLight sHwHal 260
            (constructState (Int.land colorARGB 0xff <<< (4 : Int)) flashMode onMS offMS
              brightnessMode)])
      else
        emit [Event.HWgetSupportedTypes sHwHal]
          (genericOutcome env s light colorARGB flashMode onMS offMS brightnessMode)
    else genericOutcome env s light colorARGB flashMode onMS offMS brightnessMode
  | none => genericOutcome env s light colorARGB flashMode onMS offMS brightnessMode

/-- Lines 201-240 without log lines. -/
def hwOutcome (env : Env) (s : Dispatcher)
    (light colorARGB flashMode onMS offMS brightnessMode : Int) : Dispatcher × List Event :=
  if s.sHwTried = false then
    emit [Event.getServiceHw]
      (hwSendOutcome env { s with sHwHal := env.getServiceHw }
        light colorARGB flashMode onMS offMS brightnessMode)
  else hwSendOutcome env s light colorARGB flashMode onMS offMS brightnessMode

/-- Lines 168-240 without log lines. -/
def vendorASendOutcome (env : Env) (s : Dispatcher)
    (light colorARGB flashMode onMS offMS brightnessMode : Int) : Dispatcher × List Event :=
  match s.sSecHal with
  | some sSecHal =>
    (s, [Event.setLightSec sSecHal light
      (constructState colorARGB flashMode onMS offMS brightnessMode)])
  | none =>
    match s.sSehHal with
    | some sSehHal =>
      if light = 0 ∧ flashMode = Flash.HARDWARE then
        (s, [Event.sehSetLight sSehHal light
          { flashMode := Flash.NONE, brightnessMode := brightnessMode,
            extendedBrightness := colorARGB }])
      else hwOutcome env s light colorARGB flashMode onMS offMS brightnessMode
    | none => hwOutcome env s light colorARGB flashMode onMS offMS brightnessMode

/-- Lines 162-240 without log lines. -/
def vendorAOutcome (env : Env) (s : Dispatcher)
    (light colorARGB flashMode onMS offMS brightnessMode : Int) : Dispatcher × List Event :=
  if s.sSecTried = false then
    emit [Event.getServiceSec, Event.getServiceSeh]
      (vendorASendOutcome env
        { s with sSecHal := env.getServiceSec, sSehHal := env.getServiceSeh }
        light colorARGB flashMode onMS offMS brightnessMode)
  else vendorASendOutcome env s light colorARGB flashMode onMS offMS brightnessMode

/-- The whole call without log lines. -/
def outcome (env : Env) (s : Dispatcher)
    (light colorARGB flashMode onMS offMS brightnessMode : Int) : Dispatcher × List Event :=
  if s.sLightSupported = false then (s, [])
  else if (validate light flashMode brightnessMode).1 = false then (s, [])
  else vendorAOutcome env s light colorARGB flashMode onMS offMS brightnessMode

/-! ## A concrete outside world for the examples -/

/-- An outside world given by what the four `getService()` calls return and
what the Huawei service reports as its supported types; every backend answers
`Status::SUCCESS` and the timed block takes 3 ms. -/
def exampleEnv (sec seh hw generic : Option Handle) (types : Option (List Int)) : Env :=
  { getServiceSec := sec
    getServiceSeh := seh
    getServiceHw := hw
    getService := generic
    setLightSec := fun _ _ => Return.ok Status.SUCCESS
    sehSetLight := fun _ _ => Return.ok Status.SUCCESS
    HWgetSupportedTypes := types
    HWsetLight := fun _ _ => Return.ok Status.SUCCESS
    setLight := fun _ _ => Return.ok Status.SUCCESS
    duration := 3 }

/-! ## Auxiliary lemmas -/

/-- The function `setLight_native` is its two guards followed by the blocks
above; the two sides unfold to the same term. -/
theorem setLight_native_eq (env : Env) (s : Dispatcher)
    (light colorARGB flashMode onMS offMS brightnessMode : Int) :
    setLight_native env s light colorARGB flashMode onMS offMS brightnessMode =
      if !s.sLightSupported then (s, [])
      else if !(validate light flashMode brightnessMode).1 then
        (s, (validate light flashMode brightnessMode).2.map Event.log)
      else vendorAPath env s ((validate light flashMode brightnessMode).2.map Event.log)
        light colorARGB flashMode onMS offMS brightnessMode := rfl

theorem commands_append (a b : List Event) :
    commands (a ++ b) = commands a ++ commands b := by
  simp [commands]

theorem validate_fst_iff (light flash brightness : Int) :
    (validate light flash brightness).1 = true ↔
      ((0 ≤ light ∧ light < LightType.COUNT) ∧
       (flash = Flash.NONE ∨ flash = Flash.TIMED ∨ flash = Flash.HARDWARE) ∧
       (brightness = Brightness.USER ∨ brightness = Brightness.SENSOR ∨
          brightness = Brightness.LOW_PERSISTENCE) ∧
       (brightness = Brightness.LOW_PERSISTENCE → light = LightType.BACKLIGHT)) := by
  simp only [validate, LightType.COUNT, LightType.BACKLIGHT, Flash.NONE, Flash.TIMED,
    Flash.HARDWARE, Brightness.USER, Brightness.SENSOR, Brightness.LOW_PERSISTENCE, Id.run,
    bind, pure]
  split_ifs <;> simp_all <;> omega

theorem validate_snd_of_valid (light flash brightness : Int)
    (h : (validate light flash brightness).1 = true) :
    (validate light flash brightness).2 = [] := by
  revert h
  simp only [validate, Id.run, bind, pure]
  split_ifs <;> simp

theorem foldl_supportedTypesStep (types : List Int) (acc : Bool × List Log) :
    (types.foldl supportedTypesStep acc).1 = (acc.1 || decide ((260 : Int) ∈ types)) := by
  induction types generalizing acc with
  | nil => simp
  | cons t ts ih =>
    rw [List.foldl_cons, ih]
    by_cases h : t = 260
    · simp [supportedTypesStep, h]
    · have h2 : ¬ (260 : Int) = t := fun e => h e.symm
      simp [supportedTypesStep, h, h2]

theorem supportedTypesCallback_fst (types : List Int) :
    (supportedTypesCallback types false).1 = decide ((260 : Int) ∈ types) := by
  simp [supportedTypesCallback, foldl_supportedTypesStep]

theorem ldiff_255 (m : Nat) : Nat.ldiff 255 m = 255 - m % 256 := by
  apply Nat.eq_of_testBit_eq
  intro i
  have h1 : (255 : Nat) = 2 ^ 8 - 1 := by norm_num
  have h2 : 255 - m % 256 = 2 ^ 8 - (m % 2 ^ 8 + 1) := by omega
  rw [Nat.testBit_ldiff, h2, Nat.testBit_two_pow_sub_succ (Nat.mod_lt _ (by norm_num)), h1,
    Nat.testBit_two_pow_sub_one, Nat.testBit_mod_two_pow]
  cases decide (i < 8) <;> simp

/-- On a two's-complement integer `x & 0xff` is the residue of `x` modulo 256. -/
theorem land_255 (x : Int) : Int.land x 255 = x % 256 := by
  cases x with
  | ofNat n =>
    show ((n &&& 255 : Nat) : Int) = (n : Int) % 256
    have : n &&& 255 = n % 256 := by
      have := Nat.and_pow_two_sub_one_eq_mod n 8
      simpa using this
    rw [this]; norm_cast
  | negSucc m =>
    show ((Nat.ldiff 255 m : Nat) : Int) = Int.negSucc m % 256
    rw [ldiff_255, Int.negSucc_eq]
    omega

/-- The Huawei brightness `(colorARGB & 0xff) << 4` is sixteen times the low
byte of the colour. -/
theorem hwBrightness_eq (colorARGB : Int) :
    Int.land colorARGB 0xff <<< (4 : Int) = colorARGB % 256 * 16 := by
  rw [land_255]
  have := Int.shiftLeft_eq_mul_pow (colorARGB % 256) 4
  simpa using this

theorem genericPath_erase (env : Env) (s : Dispatcher) (tr : List Event)
    (light colorARGB flashMode onMS offMS brightnessMode : Int) :
    erase (genericPath env s tr light colorARGB flashMode onMS offMS brightnessMode) =
      emit (backendEvents tr)
        (genericOutcome env s light colorARGB flashMode onMS offMS brightnessMode) := by
  unfold genericPath genericOutcome
  cases env.getService <;> simp [erase, emit, backendEvents, Event.isLog]

theorem reports260_eq (env : Env) :
    reports260 env =
      match env.HWgetSupportedTypes with
      | some types => (supportedTypesCallback types false).1
      | none => false := by
  unfold reports260
  cases env.HWgetSupportedTypes <;> simp [supportedTypesCallback_fst]

theorem hwSend_erase (env : Env) (s : Dispatcher) (tr : List Event)
    (light colorARGB flashMode onMS offMS brightnessMode : Int) :
    erase (hwSend env s tr light colorARGB flashMode onMS offMS brightnessMode) =
      emit (backendEvents tr)
        (hwSendOutcome env s light colorARGB flashMode onMS offMS brightnessMode) := by
  unfold hwSend hwSendOutcome
  cases hh : s.sHwHal with
  | none => simp [genericPath_erase]
  | some h =>
    by_cases hl : light = 0
    · cases ht : env.HWgetSupportedTypes with
      | none =>
        simp [hl, ht, reports260, genericPath_erase, emit, backendEvents, Event.isLog]
      | some types =>
        cases hc : (supportedTypesCallback types false).1
        · have : reports260 env = false := by rw [reports260_eq, ht]; exact hc
          simp [hl, hc, this, genericPath_erase, emit, backendEvents, Event.isLog]
        · have : reports260 env = true := by rw [reports260_eq, ht]; exact hc
          simp [hl, hc, this, erase, emit, backendEvents, Event.isLog]
    · simp [hl, genericPath_erase]

theorem hwPath_erase (env : Env) (s : Dispatcher) (tr : List Event)
    (light colorARGB flashMode onMS offMS brightnessMode : Int) :
    erase (hwPath env s tr light colorARGB flashMode onMS offMS brightnessMode) =
      emit (backendEvents tr)
        (hwOutcome env s light colorARGB flashMode onMS offMS brightnessMode) := by
  unfold hwPath hwOutcome
  cases s.sHwTried <;> simp [hwSend_erase, emit, backendEvents, Event.isLog]

theorem vendorASend_erase (env : Env) (s : Dispatcher) (tr : List Event)
    (light colorARGB flashMode onMS offMS brightnessMode : Int) :
    erase (vendorASend env s tr light colorARGB flashMode onMS offMS brightnessMode) =
      emit (backendEvents tr)
        (vendorASendOutcome env s light colorARGB flashMode onMS offMS brightnessMode) := by
  unfold vendorASend vendorASendOutcome
  cases hsec : s.sSecHal with
  | some h => simp [erase, emit, backendEvents, Event.isLog]
  | none =>
    cases hseh : s.sSehHal with
    | none => simp [hwPath_erase]
    | some h =>
      by_cases hc : light = 0 ∧ flashMode = Flash.HARDWARE
      · cases hok : (env.sehSetLight light
              { flashMode := Flash.NONE, brightnessMode := brightnessMode,
                extendedBrightness := colorARGB }).isOk <;>
          simp [hc, hok, erase, emit, backendEvents, Event.isLog]
      · have hc2 : ¬ (light = 0 ∧ flashMode = Flash.HARDWARE) := hc
        simp only [not_and] at hc
        simp [hc, hc2, hwPath_erase]

theorem vendorAPath_erase (env : Env) (s : Dispatcher) (tr : List Event)
    (light colorARGB flashMode onMS offMS brightnessMode : Int) :
    erase (vendorAPath env s tr light colorARGB flashMode onMS offMS brightnessMode) =
      emit (backendEvents tr)
        (vendorAOutcome env s light colorARGB flashMode onMS offMS brightnessMode) := by
  unfold vendorAPath vendorAOutcome
  cases s.sSecTried <;> simp [vendorASend_erase, emit, backendEvents, Event.isLog]

theorem setLight_native_outcome (env : Env) (s : Dispatcher)
    (light colorARGB flashMode onMS offMS brightnessMode : Int) :
    erase (setLight_native env s light colorARGB flashMode onMS offMS brightnessMode) =
      outcome env s light colorARGB flashMode onMS offMS brightnessMode := by
  rw [setLight_native_eq]
  unfold outcome
  cases hs : s.sLightSupported
  · simp [erase, backendEvents]
  cases hv : (validate light flashMode brightnessMode).1
  · simp [erase, backendEvents, Event.isLog]
  · simp [vendorAPath_erase, emit, backendEvents, validate_snd_of_valid _ _ _ hv]

theorem setLight_native_fst (env : Env) (s : Dispatcher)
    (light colorARGB flashMode onMS offMS brightnessMode : Int) :
    (setLight_native env s light colorARGB flashMode onMS offMS brightnessMode).1 =
      (outcome env s light colorARGB flashMode onMS offMS brightnessMode).1 := by
  rw [← setLight_native_outcome]; rfl

theorem setLight_native_backendEvents (env : Env) (s : Dispatcher)
    (light colorARGB flashMode onMS offMS brightnessMode : Int) :
    backendEvents (setLight_native env s light colorARGB flashMode onMS offMS brightnessMode).2 =
      (outcome env s light colorARGB flashMode onMS offMS brightnessMode).2 := by
  rw [← setLight_native_outcome]; rfl

theorem commands_backendEvents (tr : List Event) : commands (backendEvents tr) = commands tr := by
  induction tr with
  | nil => rfl
  | cons e tr ih =>
    cases e <;> simp_all [commands, backendEvents, Event.isLog, Event.isCommand, List.filter_cons]

theorem setLight_native_commands (env : Env) (s : Dispatcher)
    (light colorARGB flashMode onMS offMS brightnessMode : Int) :
    commands (setLight_native env s light colorARGB flashMode onMS offMS brightnessMode).2 =
      commands (outcome env s light colorARGB flashMode onMS offMS brightnessMode).2 := by
  rw [← setLight_native_backendEvents, commands_backendEvents]

theorem mem_backendEvents (e : Event) (tr : List Event) :
    e ∈ backendEvents tr ↔ e ∈ tr ∧ e.isLog = false := by
  simp [backendEvents]

theorem mem_outcome_iff (e : Event) (he : e.isLog = false) (env : Env) (s : Dispatcher)
    (light colorARGB flashMode onMS offMS brightnessMode : Int) :
    e ∈ (setLight_native env s light colorARGB flashMode onMS offMS brightnessMode).2 ↔
      e ∈ (outcome env s light colorARGB flashMode onMS offMS brightnessMode).2 := by
  rw [← setLight_native_backendEvents, mem_backendEvents]
  simp [he]

theorem chainOrder_emit (env : Env) (light flashMode : Int) (pre : List Event)
    (hpre : ∀ e ∈ pre, e.isCommand = false) (r : Dispatcher × List Event)
    (h : chainOrder env light flashMode r) : chainOrder env light flashMode (emit pre r) := by
  have hc : commands pre = [] := by
    simp only [commands, List.filter_eq_nil_iff]
    intro e he; simp [hpre e he]
  obtain ⟨h0, h1, h2, h3, h4⟩ := h
  refine ⟨?_, ?_, ?_, ?_, ?_⟩
  · simpa [emit, commands_append, hc] using h0
  · intro h t st hm
    simp only [emit, List.mem_append] at hm
    rcases hm with hm | hm
    · have := hpre _ hm; simp [Event.isCommand] at this
    · exact h1 h t st hm
  · intro h t st hm
    simp only [emit, List.mem_append] at hm
    rcases hm with hm | hm
    · have := hpre _ hm; simp [Event.isCommand] at this
    · exact h2 h t st hm
  · intro h t st hm
    simp only [emit, List.mem_append] at hm
    rcases hm with hm | hm
    · have := hpre _ hm; simp [Event.isCommand] at this
    · exact h3 h t st hm
  · intro h t st hm
    simp only [emit, List.mem_append] at hm
    rcases hm with hm | hm
    · have := hpre _ hm; simp [Event.isCommand] at this
    · exact h4 h t st hm

theorem chainOrder_generic (env : Env) (s : Dispatcher)
    (light colorARGB flashMode onMS offMS brightnessMode : Int)
    (h1 : s.sSecHal = none)
    (h2 : ¬ (s.sSehHal ≠ none ∧ light = 0 ∧ flashMode = Flash.HARDWARE))
    (h3 : ¬ (s.sHwHal ≠ none ∧ light = 0 ∧ reports260 env = true)) :
    chainOrder env light flashMode
      (genericOutcome env s light colorARGB flashMode onMS offMS brightnessMode) := by
  unfold genericOutcome chainOrder
  cases env.getService with
  | none => simp [commands, Event.isCommand]
  | some g =>
    refine ⟨by simp [commands, Event.isCommand], by simp, by simp, by simp, ?_⟩
    intro h t st _
    exact ⟨h1, h2, h3⟩

theorem chainOrder_hwSend (env : Env) (s : Dispatcher)
    (light colorARGB flashMode onMS offMS brightnessMode : Int)
    (h1 : s.sSecHal = none)
    (h2 : ¬ (s.sSehHal ≠ none ∧ light = 0 ∧ flashMode = Flash.HARDWARE)) :
    chainOrder env light flashMode
      (hwSendOutcome env s light colorARGB flashMode onMS offMS brightnessMode) := by
  unfold hwSendOutcome
  cases hh : s.sHwHal with
  | none =>
    exact chainOrder_generic env s _ _ _ _ _ _ h1 h2 (by simp [hh])
  | some hw =>
    by_cases hl : light = 0
    · cases hr : reports260 env
      · simp only [hl, if_true, Bool.false_eq_true, if_false]
        apply chainOrder_emit _ _ _ _ (by simp [Event.isCommand])
        exact chainOrder_generic env s _ _ _ _ _ _ h1 (by simpa [hl] using h2) (by simp [hr])
      · simp only [hl, if_true]
        refine ⟨by simp [commands, Event.isCommand], by simp, by simp, ?_, by simp⟩
        intro h t st hm
        simp at hm
        exact ⟨h1, by simpa [hl] using h2, by simp [hh, hm.1], rfl, hr⟩
    · simp only [hl, if_false]
      exact chainOrder_generic env s _ _ _ _ _ _ h1 h2 (by simp [hl])

theorem chainOrder_hw (env : Env) (s : Dispatcher)
    (light colorARGB flashMode onMS offMS brightnessMode : Int)
    (h1 : s.sSecHal = none)
    (h2 : ¬ (s.sSehHal ≠ none ∧ light = 0 ∧ flashMode = Flash.HARDWARE)) :
    chainOrder env light flashMode
      (hwOutcome env s light colorARGB flashMode onMS offMS brightnessMode) := by
  unfold hwOutcome
  cases s.sHwTried
  · simp only [if_true]
    apply chainOrder_emit _ _ _ _ (by simp [Event.isCommand])
    exact chainOrder_hwSend env _ _ _ _ _ _ _ h1 h2
  · simp only [Bool.true_eq_false, if_false]
    exact chainOrder_hwSend env _ _ _ _ _ _ _ h1 h2

theorem chainOrder_vendorASend (env : Env) (s : Dispatcher)
    (light colorARGB flashMode onMS offMS brightnessMode : Int) :
    chainOrder env light flashMode
      (vendorASendOutcome env s light colorARGB flashMode onMS offMS brightnessMode) := by
  unfold vendorASendOutcome
  cases h1 : s.sSecHal with
  | some sec =>
    refine ⟨by simp [commands, Event.isCommand], ?_, by simp, by simp, by simp⟩
    intro h t st hm
    simp at hm
    simp [h1, hm.1]
  | none =>
    cases hseh : s.sSehHal with
    | none => exact chainOrder_hw env s _ _ _ _ _ _ h1 (by simp [hseh])
    | some seh =>
      by_cases hc : light = 0 ∧ flashMode = Flash.HARDWARE
      · simp only [if_pos hc]
        refine ⟨by simp [commands, Event.isCommand], by simp, ?_, by simp, by simp⟩
        intro h t st hm
        simp at hm
        exact ⟨h1, by simp [hseh, hm.1], hc.1, hc.2⟩
      · simp only [if_neg hc]
        exact chainOrder_hw env s _ _ _ _ _ _ h1 (by simpa [hseh] using hc)

theorem chainOrder_outcome (env : Env) (s : Dispatcher)
    (light colorARGB flashMode onMS offMS brightnessMode : Int) :
    chainOrder env light flashMode
      (outcome env s light colorARGB flashMode onMS offMS brightnessMode) := by
  unfold outcome
  split
  · simp [chainOrder, commands]
  split
  · simp [chainOrder, commands]
  unfold vendorAOutcome
  split
  · apply chainOrder_emit _ _ _ _ (by simp [Event.isCommand])
    exact chainOrder_vendorASend env _ _ _ _ _ _ _
  · exact chainOrder_vendorASend env _ _ _ _ _ _ _

/-- The generic path clears `sLightSupported` when `ILight::getService()`
returns null. -/
theorem genericOutcome_disables (env : Env) (s : Dispatcher)
    (light colorARGB flashMode onMS offMS brightnessMode : Int)
    (hnull : env.getService = none) :
    (genericOutcome env s light colorARGB flashMode onMS offMS brightnessMode).1.sLightSupported =
      false := by
  simp [genericOutcome, hnull]

theorem hwSendOutcome_disables (env : Env) (s : Dispatcher)
    (light colorARGB flashMode onMS offMS brightnessMode : Int)
    (hnull : env.getService = none)
    (hreach : Event.getService ∈
      (hwSendOutcome env s light colorARGB flashMode onMS offMS brightnessMode).2) :
    (hwSendOutcome env s light colorARGB flashMode onMS offMS brightnessMode).1.sLightSupported =
      false := by
  revert hreach
  unfold hwSendOutcome
  cases s.sHwHal with
  | none => intro _; exact genericOutcome_disables env s _ _ _ _ _ _ hnull
  | some hw =>
    by_cases hl : light = 0
    · cases hr : reports260 env
      · intro _
        simp only [hl, if_true, Bool.false_eq_true, if_false, emit]
        exact genericOutcome_disables env s _ _ _ _ _ _ hnull
      · simp [hl]
    · intro _
      simp only [hl, if_false]
      exact genericOutcome_disables env s _ _ _ _ _ _ hnull

theorem hwOutcome_disables (env : Env) (s : Dispatcher)
    (light colorARGB flashMode onMS offMS brightnessMode : Int)
    (hnull : env.getService = none)
    (hreach : Event.getService ∈
      (hwOutcome env s light colorARGB flashMode onMS offMS brightnessMode).2) :
    (hwOutcome env s light colorARGB flashMode onMS offMS brightnessMode).1.sLightSupported =
      false := by
  revert hreach
  unfold hwOutcome
  cases s.sHwTried
  · simp only [if_true, emit, List.mem_append, List.mem_singleton, reduceCtorEq, false_or]
    exact hwSendOutcome_disables env _ _ _ _ _ _ _ hnull
  · simp only [Bool.true_eq_false, if_false]
    exact hwSendOutcome_disables env _ _ _ _ _ _ _ hnull

theorem vendorASendOutcome_disables (env : Env) (s : Dispatcher)
    (light colorARGB flashMode onMS offMS brightnessMode : Int)
    (hnull : env.getService = none)
    (hreach : Event.getService ∈
      (vendorASendOutcome env s light colorARGB flashMode onMS offMS brightnessMode).2) :
    (vendorASendOutcome env s light colorARGB flashMode onMS offMS
      brightnessMode).1.sLightSupported = false := by
  revert hreach
  unfold vendorASendOutcome
  cases s.sSecHal with
  | some sec => simp
  | none =>
    cases s.sSehHal with
    | none => exact hwOutcome_disables env s _ _ _ _ _ _ hnull
    | some seh =>
      by_cases hc : light = 0 ∧ flashMode = Flash.HARDWARE
      · simp [if_pos hc]
      · simp only [if_neg hc]
        exact hwOutcome_disables env s _ _ _ _ _ _ hnull

theorem outcome_disables (env : Env) (s : Dispatcher)
    (light colorARGB flashMode onMS offMS brightnessMode : Int)
    (hnull : env.getService = none)
    (hreach : Event.getService ∈
      (outcome env s light colorARGB flashMode onMS offMS brightnessMode).2) :
    (outcome env s light colorARGB flashMode onMS offMS brightnessMode).1.sLightSupported =
      false := by
  revert hreach
  unfold outcome
  split
  · simp
  split
  · simp
  unfold vendorAOutcome
  split
  · simp only [emit, List.mem_append, List.mem_cons, reduceCtorEq, List.mem_singleton, false_or,
      List.not_mem_nil]
    exact vendorASendOutcome_disables env _ _ _ _ _ _ _ hnull
  · exact vendorASendOutcome_disables env _ _ _ _ _ _ _ hnull

theorem run_disabled (s : Dispatcher) (hs : s.sLightSupported = false) (cs : List Call) :
    run s cs = (s, cs.map (fun _ => [])) := by
  induction cs with
  | nil => rfl
  | cons c cs ih =>
    have h : c.exec s = (s, []) := by
      simp [Call.exec, setLight_native_eq, hs]
    simp [run, h, ih]


/-- The colour of a constructed state is the colour given. -/
theorem constructState_color (colorARGB flashMode onMS offMS brightnessMode : Int) :
    (constructState colorARGB flashMode onMS offMS brightnessMode).color = colorARGB := by
  rfl

/-- A valid call made with the flag set and `sSecTried` clear, when
`ISecLight::getService()` returns null and the Samsung 3.0 path does not apply,
is lines 201-240 run after the two Samsung resolutions. -/
theorem outcome_past_vendorA (env : Env) (s : Dispatcher)
    (light colorARGB flashMode onMS offMS brightnessMode : Int)
    (hs : s.sLightSupported = true) (hsec : s.sSecTried = false)
    (hv : (validate light flashMode brightnessMode).1 = true)
    (h1 : env.getServiceSec = none)
    (h2 : ¬ (env.getServiceSeh ≠ none ∧ light = 0 ∧ flashMode = Flash.HARDWARE)) :
    outcome env s light colorARGB flashMode onMS offMS brightnessMode =
      emit [Event.getServiceSec, Event.getServiceSeh]
        (hwOutcome env { s with sSecHal := none, sSehHal := env.getServiceSeh }
          light colorARGB flashMode onMS offMS brightnessMode) := by
  unfold outcome vendorAOutcome vendorASendOutcome
  simp only [hs, hv, hsec, h1, Bool.true_eq_false, if_false, if_true]
  cases hseh : env.getServiceSeh with
  | none => rfl
  | some seh =>
    have hc : ¬ (light = 0 ∧ flashMode = Flash.HARDWARE) := by
      intro h; exact h2 ⟨by simp [hseh], h⟩
    simp only [if_neg hc]

/-- The events of the generic path do not depend on the statics. -/
theorem genericOutcome_snd (env : Env) (s s' : Dispatcher)
    (light colorARGB flashMode onMS offMS brightnessMode : Int) :
    (genericOutcome env s light colorARGB flashMode onMS offMS brightnessMode).2 =
      (genericOutcome env s' light colorARGB flashMode onMS offMS brightnessMode).2 := by
  unfold genericOutcome
  cases env.getService <;> rfl

/-- Lines 201-240 with `sHwTried` clear and the Huawei service present:
the events, by cases on the light id, the reported types and the generic
service. -/
theorem hwOutcome_present (env : Env) (s : Dispatcher)
    (light colorARGB flashMode onMS offMS brightnessMode : Int) (hw : Handle)
    (hhw : s.sHwTried = false) (h3 : env.getServiceHw = some hw) :
    (hwOutcome env s light colorARGB flashMode onMS offMS brightnessMode).2 =
      Event.getServiceHw ::
        (if light = 0 then
          Event.HWgetSupportedTypes hw ::
            (if reports260 env = true then
              [Event.HWsetLight hw 260
                (constructState (Int.land colorARGB 0xff <<< (4 : Int)) flashMode onMS offMS
                  brightnessMode)]
            else (genericOutcome env s light colorARGB flashMode onMS offMS brightnessMode).2)
        else (genericOutcome env s light colorARGB flashMode onMS offMS brightnessMode).2) := by
  unfold hwOutcome hwSendOutcome
  simp only [hhw, h3, if_true, emit]
  by_cases hl : light = 0
  · cases hr : reports260 env
    · simpa [hl] using genericOutcome_snd env _ s 0 _ _ _ _ _
    · simp [hl]
  · simpa [hl] using genericOutcome_snd env _ s light _ _ _ _ _


/-- No block of the call writes a tried flag. -/
theorem genericOutcome_tried (env : Env) (s : Dispatcher)
    (light colorARGB flashMode onMS offMS brightnessMode : Int) :
    (genericOutcome env s light colorARGB flashMode onMS offMS brightnessMode).1.sSecTried =
        s.sSecTried ∧
      (genericOutcome env s light colorARGB flashMode onMS offMS brightnessMode).1.sHwTried =
        s.sHwTried := by
  unfold genericOutcome
  cases env.getService <;> simp

theorem hwSendOutcome_tried (env : Env) (s : Dispatcher)
    (light colorARGB flashMode onMS offMS brightnessMode : Int) :
    (hwSendOutcome env s light colorARGB flashMode onMS offMS brightnessMode).1.sSecTried =
        s.sSecTried ∧
      (hwSendOutcome env s light colorARGB flashMode onMS offMS brightnessMode).1.sHwTried =
        s.sHwTried := by
  unfold hwSendOutcome
  cases s.sHwHal with
  | none => exact genericOutcome_tried env s _ _ _ _ _ _
  | some hw =>
    by_cases hl : light = 0
    · cases hr : reports260 env
      · simpa [hl, emit] using genericOutcome_tried env s 0 _ _ _ _ _
      · simp [hl]
    · simpa [hl] using genericOutcome_tried env s light _ _ _ _ _

theorem hwOutcome_tried (env : Env) (s : Dispatcher)
    (light colorARGB flashMode onMS offMS brightnessMode : Int) :
    (hwOutcome env s light colorARGB flashMode onMS offMS brightnessMode).1.sSecTried =
        s.sSecTried ∧
      (hwOutcome env s light colorARGB flashMode onMS offMS brightnessMode).1.sHwTried =
        s.sHwTried := by
  unfold hwOutcome
  cases hh : s.sHwTried
  · simpa [emit, hh] using hwSendOutcome_tried env { s with sHwHal := env.getServiceHw }
      light colorARGB flashMode onMS offMS brightnessMode
  · simpa [hh] using hwSendOutcome_tried env s light colorARGB flashMode onMS offMS brightnessMode

theorem vendorASendOutcome_tried (env : Env) (s : Dispatcher)
    (light colorARGB flashMode onMS offMS brightnessMode : Int) :
    (vendorASendOutcome env s light colorARGB flashMode onMS offMS brightnessMode).1.sSecTried =
        s.sSecTried ∧
      (vendorASendOutcome env s light colorARGB flashMode onMS offMS brightnessMode).1.sHwTried =
        s.sHwTried := by
  unfold vendorASendOutcome
  cases s.sSecHal with
  | some sec => simp
  | none =>
    cases s.sSehHal with
    | none => exact hwOutcome_tried env s _ _ _ _ _ _
    | some seh =>
      by_cases hc : light = 0 ∧ flashMode = Flash.HARDWARE
      · simp [if_pos hc]
      · simp only [if_neg hc]
        exact hwOutcome_tried env s _ _ _ _ _ _

theorem outcome_tried (env : Env) (s : Dispatcher)
    (light colorARGB flashMode onMS offMS brightnessMode : Int) :
    (outcome env s light colorARGB flashMode onMS offMS brightnessMode).1.sSecTried =
        s.sSecTried ∧
      (outcome env s light colorARGB flashMode onMS offMS brightnessMode).1.sHwTried =
        s.sHwTried := by
  unfold outcome
  split
  · simp
  split
  · simp
  unfold vendorAOutcome
  cases hh : s.sSecTried
  · simpa [emit, hh] using vendorASendOutcome_tried env
      { s with sSecHal := env.getServiceSec, sSehHal := env.getServiceSeh }
      light colorARGB flashMode onMS offMS brightnessMode
  · simpa [hh] using
      vendorASendOutcome_tried env s light colorARGB flashMode onMS offMS brightnessMode

/-- A valid call made with the flag set and `sSecTried` clear, when
`ISecLight::getService()` returns a service. -/
theorem outcome_sec (env : Env) (s : Dispatcher)
    (light colorARGB flashMode onMS offMS brightnessMode : Int) (hal : Handle)
    (hs : s.sLightSupported = true) (hsec : s.sSecTried = false)
    (hv : (validate light flashMode brightnessMode).1 = true)
    (h1 : env.getServiceSec = some hal) :
    outcome env s light colorARGB flashMode onMS offMS brightnessMode =
      ({ s with sSecHal := some hal, sSehHal := env.getServiceSeh },
        [Event.getServiceSec, Event.getServiceSeh,
          Event.setLightSec hal light
            (constructState colorARGB flashMode onMS offMS brightnessMode)]) := by
  unfold outcome vendorAOutcome vendorASendOutcome
  simp [hs, hv, hsec, h1, emit]

/-- The blocks after line 201 never send a `sehSetLight`. -/
theorem hwOutcome_no_sehSetLight (env : Env) (s : Dispatcher)
    (light colorARGB flashMode onMS offMS brightnessMode : Int)
    (h : Handle) (t : Int) (st : SehLightState) :
    Event.sehSetLight h t st ∉
      (hwOutcome env s light colorARGB flashMode onMS offMS brightnessMode).2 := by
  unfold hwOutcome hwSendOutcome genericOutcome
  cases s.sHwTried <;> cases s.sHwHal <;> cases env.getServiceHw <;> cases env.getService <;>
    by_cases hl : light = 0 <;> cases reports260 env <;> simp [emit, hl]

/-- Lines 201-240 with `sHwTried` clear resolve the Huawei service and end
either in a `HWsetLight` or in the generic path. -/
theorem hwOutcome_continues (env : Env) (s : Dispatcher)
    (light colorARGB flashMode onMS offMS brightnessMode : Int)
    (hhw : s.sHwTried = false) :
    Event.getServiceHw ∈
        (hwOutcome env s light colorARGB flashMode onMS offMS brightnessMode).2 ∧
      ((∃ h t st, Event.HWsetLight h t st ∈
          (hwOutcome env s light colorARGB flashMode onMS offMS brightnessMode).2) ∨
        Event.getService ∈
          (hwOutcome env s light colorARGB flashMode onMS offMS brightnessMode).2) := by
  unfold hwOutcome hwSendOutcome genericOutcome
  cases env.getServiceHw <;> cases env.getService <;>
    by_cases hl : light = 0 <;> cases reports260 env <;> simp [emit, hl, hhw]

/-- Type 260 is reported when the callback is run on a list that contains
260; a failed transaction or a list without 260 (the empty list included)
reports nothing. -/
theorem reports260_iff (env : Env) :
    reports260 env = true ↔
      ∃ types, env.HWgetSupportedTypes = some types ∧ (260 : Int) ∈ types := by
  unfold reports260
  cases env.HWgetSupportedTypes <;> simp

/-- No call writes a tried flag. -/
theorem exec_tried (c : Call) (s : Dispatcher) :
    (c.exec s).1.sSecTried = s.sSecTried ∧ (c.exec s).1.sHwTried = s.sHwTried := by
  unfold Call.exec
  rw [setLight_native_fst]
  exact outcome_tried _ _ _ _ _ _ _ _

/-- The tried flags are clear in every state the process can reach: whatever
calls are made from the initial statics, both flags are still false. -/
theorem run_tried (cs : List Call) :
    (run Dispatcher.initial cs).1.sSecTried = false ∧
      (run Dispatcher.initial cs).1.sHwTried = false := by
  have h : ∀ (cs : List Call) (s : Dispatcher),
      (run s cs).1.sSecTried = s.sSecTried ∧ (run s cs).1.sHwTried = s.sHwTried := by
    intro cs
    induction cs with
    | nil => intro s; exact ⟨rfl, rfl⟩
    | cons c cs ih =>
      intro s
      have h1 := ih (c.exec s).1
      have h2 := exec_tried c s
      exact ⟨h1.1.trans h2.1, h1.2.trans h2.2⟩
  exact h cs Dispatcher.initial

/-! ## The claims -/

/-- C1. `validate(light, flash, brightness)` returns true if and only if the
light id is one of the eight ids 0..7 (`0 <= light < Type::COUNT`), the flash
mode is NONE, TIMED or HARDWARE, the brightness mode is USER, SENSOR or
LOW_PERSISTENCE, and LOW_PERSISTENCE comes only with the BACKLIGHT.  In
particular a LOW_PERSISTENCE request for another light is rejected.  The
result is a function of these three arguments alone.  The constants are
BACKLIGHT = 0, COUNT = 8, NONE = 0, TIMED = 1, HARDWARE = 2, USER = 0,
SENSOR = 1, LOW_PERSISTENCE = 2. -/
theorem validate_accepts_iff (light flash brightness : Int) :
    ((validate light flash brightness).1 = true ↔
      (0 ≤ light ∧ light < LightType.COUNT) ∧
      (flash = Flash.NONE ∨ flash = Flash.TIMED ∨ flash = Flash.HARDWARE) ∧
      (brightness = Brightness.USER ∨ brightness = Brightness.SENSOR ∨
        brightness = Brightness.LOW_PERSISTENCE) ∧
      (brightness = Brightness.LOW_PERSISTENCE → light = LightType.BACKLIGHT)) ∧
    (brightness = Brightness.LOW_PERSISTENCE ∧ light ≠ LightType.BACKLIGHT →
      (validate light flash brightness).1 = false) ∧
    (LightType.BACKLIGHT, LightType.COUNT) = ((0 : Int), (8 : Int)) ∧
    (Flash.NONE, Flash.TIMED, Flash.HARDWARE) = ((0 : Int), (1 : Int), (2 : Int)) ∧
    (Brightness.USER, Brightness.SENSOR, Brightness.LOW_PERSISTENCE) =
      ((0 : Int), (1 : Int), (2 : Int)) := by
  refine ⟨validate_fst_iff light flash brightness, ?_, rfl, rfl, rfl⟩
  rintro ⟨hb, hl⟩
  cases hv : (validate light flash brightness).1
  · rfl
  · exact absurd (((validate_fst_iff light flash brightness).1 hv).2.2.2 hb) hl

/-- C2. A call of `setLight_native` whose `(light, flashMode, brightnessMode)`
is rejected by `validate` (in particular whenever the light id is outside
`0..COUNT-1`) resolves no service, queries no backend and sends no command: the
only events of the call are log lines.  The statics (the supported flag, the
cached handles, the tried flags) are the same after the call as before it.
This holds for every value of the statics and every outside world. -/
theorem setLight_native_rejected (env : Env) (s : Dispatcher)
    (light colorARGB flashMode onMS offMS brightnessMode : Int)
    (h : (validate light flashMode brightnessMode).1 = false ∨ light < 0 ∨
      LightType.COUNT ≤ light) :
    (setLight_native env s light colorARGB flashMode onMS offMS brightnessMode).1 = s ∧
    backendEvents
      (setLight_native env s light colorARGB flashMode onMS offMS brightnessMode).2 = [] := by
  have hv : (validate light flashMode brightnessMode).1 = false := by
    rcases h with h | h | h
    · exact h
    · cases hb : (validate light flashMode brightnessMode).1
      · rfl
      · have := ((validate_fst_iff _ _ _).1 hb).1; omega
    · cases hb : (validate light flashMode brightnessMode).1
      · rfl
      · have := ((validate_fst_iff _ _ _).1 hb).1; omega
  rw [setLight_native_fst, setLight_native_backendEvents]
  unfold outcome
  cases hs : s.sLightSupported <;> simp [hv]

/-- Witness for C2: light id 99 on the initial statics, with every service
present. -/
theorem setLight_native_rejected_witness :
    LightType.COUNT ≤ (99 : Int) ∧
    (setLight_native (exampleEnv (some 1) (some 2) (some 3) (some 4) (some [260]))
      Dispatcher.initial 99 0x00FFFFFF 0 0 0 0).1 = Dispatcher.initial ∧
    backendEvents
      (setLight_native (exampleEnv (some 1) (some 2) (some 3) (some 4) (some [260]))
        Dispatcher.initial 99 0x00FFFFFF 0 0 0 0).2 = [] :=
  ⟨by decide,
    setLight_native_rejected _ _ 99 0x00FFFFFF 0 0 0 0 (Or.inr (Or.inr (by decide)))⟩

/-- C3. `constructState(colorARGB, flashMode, onMS, offMS, brightnessMode)`
returns a state whose color is `colorARGB` and whose brightnessMode is
`brightnessMode`.  If `brightnessMode` is LOW_PERSISTENCE the flashMode is NONE
and flashOnMs and flashOffMs are left at zero, whatever `flashMode`, `onMS` and
`offMS` are; otherwise flashMode, flashOnMs and flashOffMs are `flashMode`,
`onMS` and `offMS`. -/
theorem constructState_fields (colorARGB flashMode onMS offMS brightnessMode : Int) :
    (constructState colorARGB flashMode onMS offMS brightnessMode).color = colorARGB ∧
    (constructState colorARGB flashMode onMS offMS brightnessMode).brightnessMode =
      brightnessMode ∧
    (brightnessMode = Brightness.LOW_PERSISTENCE →
      (constructState colorARGB flashMode onMS offMS brightnessMode).flashMode = Flash.NONE ∧
      (constructState colorARGB flashMode onMS offMS brightnessMode).flashOnMs = 0 ∧
      (constructState colorARGB flashMode onMS offMS brightnessMode).flashOffMs = 0) ∧
    (brightnessMode ≠ Brightness.LOW_PERSISTENCE →
      (constructState colorARGB flashMode onMS offMS brightnessMode).flashMode = flashMode ∧
      (constructState colorARGB flashMode onMS offMS brightnessMode).flashOnMs = onMS ∧
      (constructState colorARGB flashMode onMS offMS brightnessMode).flashOffMs = offMS) := by
  unfold constructState
  by_cases h : brightnessMode = Brightness.LOW_PERSISTENCE <;> simp [h]

/-- C4. A request accepted by `validate`, made while `sLightSupported` is
true, when `ISecLight`, `ISehLight` and the Huawei `ILight` do not resolve and
the generic `ILight` resolves to `hal`: the only command of the call is one
`setLight` on `hal`, with type the light id and state
`constructState(colorARGB, flashMode, onMS, offMS, brightnessMode)`.  (The
services are resolved by the call, that is, the tried flags are clear, as they
are throughout the life of the process.) -/
theorem generic_receives_request (env : Env) (s : Dispatcher)
    (light colorARGB flashMode onMS offMS brightnessMode : Int) (hal : Handle)
    (hs : s.sLightSupported = true) (hsec : s.sSecTried = false) (hhw : s.sHwTried = false)
    (hv : (validate light flashMode brightnessMode).1 = true)
    (h1 : env.getServiceSec = none) (h2 : env.getServiceSeh = none)
    (h3 : env.getServiceHw = none) (h4 : env.getService = some hal) :
    commands (setLight_native env s light colorARGB flashMode onMS offMS brightnessMode).2 =
      [Event.setLight hal light
        (constructState colorARGB flashMode onMS offMS brightnessMode)] ∧
    backendEvents
        (setLight_native env s light colorARGB flashMode onMS offMS brightnessMode).2 =
      [Event.getServiceSec, Event.getServiceSeh, Event.getServiceHw, Event.getService,
        Event.setLight hal light
          (constructState colorARGB flashMode onMS offMS brightnessMode)] := by
  rw [setLight_native_commands, setLight_native_backendEvents]
  simp [outcome, vendorAOutcome, vendorASendOutcome, hwOutcome, hwSendOutcome, genericOutcome,
    emit, hs, hsec, hhw, hv, h1, h2, h3, h4, commands, Event.isCommand]

/-- Witness for C4, the two scenarios of the specification: backlight, colour
0x00FFFFFF, flash none, on 0, off 0, no vendor service, first with brightness
user and then with brightness low-persistence. -/
theorem generic_receives_request_witness :
    commands (setLight_native (exampleEnv none none none (some 4) none)
        Dispatcher.initial 0 0x00FFFFFF 0 0 0 0).2 =
      [Event.setLight 4 0
        { color := 0x00FFFFFF, flashMode := Flash.NONE, flashOnMs := 0, flashOffMs := 0,
          brightnessMode := Brightness.USER }] ∧
    commands (setLight_native (exampleEnv none none none (some 4) none)
        Dispatcher.initial 0 0x00FFFFFF 0 0 0 2).2 =
      [Event.setLight 4 0
        { color := 0x00FFFFFF, flashMode := Flash.NONE, flashOnMs := 0, flashOffMs := 0,
          brightnessMode := Brightness.LOW_PERSISTENCE }] :=
  ⟨(generic_receives_request (exampleEnv none none none (some 4) none) Dispatcher.initial
      0 0x00FFFFFF 0 0 0 0 4 rfl rfl rfl (by decide) rfl rfl rfl rfl).1,
    (generic_receives_request (exampleEnv none none none (some 4) none) Dispatcher.initial
      0 0x00FFFFFF 0 0 0 2 4 rfl rfl rfl (by decide) rfl rfl rfl rfl).1⟩

/-- C5. Once a call of `setLight_native` has found the generic backend
unreachable (it reached `ILight::getService()` and got null), the supported
flag is false, and whatever calls follow, with any parameters and any outside
world, each of them returns at once: no event at all (no resolution, no query,
no command, no log line) and the statics never change again, so the flag is
never set back. -/
theorem generic_unreachable_disables (c : Call) (s : Dispatcher) (later : List Call)
    (hreach : Event.getService ∈ (c.exec s).2) (hnull : c.env.getService = none) :
    (c.exec s).1.sLightSupported = false ∧
    run (c.exec s).1 later = ((c.exec s).1, later.map (fun _ => [])) := by
  have h : (c.exec s).1.sLightSupported = false := by
    unfold Call.exec at hreach ⊢
    rw [mem_outcome_iff Event.getService rfl] at hreach
    rw [setLight_native_fst]
    exact outcome_disables _ _ _ _ _ _ _ _ hnull hreach
  exact ⟨h, run_disabled _ h later⟩

/-- Witness for C5: on the initial statics a valid call finds every service
absent; two later calls, one of them with every service present, do nothing. -/
theorem generic_unreachable_disables_witness :
    (run Dispatcher.initial
      [{ env := exampleEnv none none none none none, light := 0, colorARGB := 0x00FFFFFF,
          flashMode := 0, onMS := 0, offMS := 0, brightnessMode := 0 },
        { env := exampleEnv (some 1) (some 2) (some 3) (some 4) (some [260]), light := 0,
          colorARGB := 0x00FFFFFF, flashMode := 0, onMS := 0, offMS := 0, brightnessMode := 0 },
        { env := exampleEnv none none none (some 4) none, light := 3, colorARGB := 0,
          flashMode := 1, onMS := 500, offMS := 500, brightnessMode := 0 }]).2 =
      [[Event.getServiceSec, Event.getServiceSeh, Event.getServiceHw, Event.getService],
        [], []] := by
  have h := generic_unreachable_disables
    { env := exampleEnv none none none none none, light := 0, colorARGB := 0x00FFFFFF,
      flashMode := 0, onMS := 0, offMS := 0, brightnessMode := 0 }
    Dispatcher.initial
    [{ env := exampleEnv (some 1) (some 2) (some 3) (some 4) (some [260]), light := 0,
        colorARGB := 0x00FFFFFF, flashMode := 0, onMS := 0, offMS := 0, brightnessMode := 0 },
      { env := exampleEnv none none none (some 4) none, light := 3, colorARGB := 0,
        flashMode := 1, onMS := 500, offMS := 500, brightnessMode := 0 }]
    (by decide) rfl
  rw [run, h.2]
  decide


/-- Counterexample for C6 as stated.  On the initial statics a valid call
finds every service absent, the generic one included.  A second valid call is
made when the Samsung 2.0 service is present (handle 1): it has no event at
all, so `ISecLight::getService()` is not called and nothing is delivered to
the service. -/
theorem vendor_paths_not_suppressed_counterexample :
    Event.getService ∈
      (setLight_native (exampleEnv none none none none none) Dispatcher.initial
        0 0x00FFFFFF 0 0 0 0).2 ∧
    (exampleEnv none none none none none).getService = none ∧
    (validate 0 0 0).1 = true ∧
    (exampleEnv (some 1) none none none none).getServiceSec = some 1 ∧
    setLight_native (exampleEnv (some 1) none none none none)
        (setLight_native (exampleEnv none none none none none) Dispatcher.initial
          0 0x00FFFFFF 0 0 0 0).1
        0 0x00FFFFFF 0 0 0 0 =
      ({ Dispatcher.initial with sLightSupported := false }, []) := by
  decide

/-- C6, amended.  The cached unavailability of the generic backend suppresses
every path, the vendor paths included: after a call has found the generic
backend unreachable, a later call with valid parameters, made when the
Samsung 2.0 service is available, has no event at all and leaves the statics
as they are.  Vendor backends are not disabled on their own account: the same
call made while the supported flag is true (tried flag clear) resolves the
Samsung services and delivers the request to the Samsung 2.0 service, leaving
the flag true; and no call ever sets a tried flag. -/
theorem generic_unreachable_suppresses_vendor_paths (c1 c2 : Call) (s : Dispatcher)
    (hal : Handle)
    (hreach : Event.getService ∈ (c1.exec s).2) (hnull : c1.env.getService = none)
    (hv : (validate c2.light c2.flashMode c2.brightnessMode).1 = true)
    (hsec : c2.env.getServiceSec = some hal) :
    c2.exec (c1.exec s).1 = ((c1.exec s).1, []) ∧
    (∀ s' : Dispatcher, s'.sLightSupported = true → s'.sSecTried = false →
      Event.getServiceSec ∈ (c2.exec s').2 ∧
      commands (c2.exec s').2 =
        [Event.setLightSec hal c2.light
          (constructState c2.colorARGB c2.flashMode c2.onMS c2.offMS c2.brightnessMode)] ∧
      (c2.exec s').1.sLightSupported = true) ∧
    (∀ (c : Call) (s' : Dispatcher),
      (c.exec s').1.sSecTried = s'.sSecTried ∧ (c.exec s').1.sHwTried = s'.sHwTried) := by
  have h : (c1.exec s).1.sLightSupported = false := by
    unfold Call.exec at hreach ⊢
    rw [mem_outcome_iff Event.getService rfl] at hreach
    rw [setLight_native_fst]
    exact outcome_disables _ _ _ _ _ _ _ _ hnull hreach
  refine ⟨?_, ?_, ?_⟩
  · generalize (c1.exec s).1 = s1 at h ⊢
    simp [Call.exec, setLight_native_eq, h]
  · intro s' hs' ht'
    unfold Call.exec
    rw [mem_outcome_iff Event.getServiceSec rfl, setLight_native_commands, setLight_native_fst,
      outcome_sec _ _ _ _ _ _ _ _ hal hs' ht' hv hsec]
    simp [commands, Event.isCommand, hs']
  · intro c s'
    exact exec_tried c s'

/-- Witness for C6 as amended: the two calls of the counterexample. -/
theorem generic_unreachable_suppresses_vendor_paths_witness :
    setLight_native (exampleEnv (some 1) none none none none)
        (setLight_native (exampleEnv none none none none none) Dispatcher.initial
          0 0x00FFFFFF 0 0 0 0).1
        0 0x00FFFFFF 0 0 0 0 =
      ((setLight_native (exampleEnv none none none none none) Dispatcher.initial
          0 0x00FFFFFF 0 0 0 0).1, []) ∧
    commands (setLight_native (exampleEnv (some 1) none none none none) Dispatcher.initial
        0 0x00FFFFFF 0 0 0 0).2 =
      [Event.setLightSec 1 0 (constructState 0x00FFFFFF 0 0 0 0)] :=
  ⟨(generic_unreachable_suppresses_vendor_paths
      { env := exampleEnv none none none none none, light := 0, colorARGB := 0x00FFFFFF,
        flashMode := 0, onMS := 0, offMS := 0, brightnessMode := 0 }
      { env := exampleEnv (some 1) none none none none, light := 0, colorARGB := 0x00FFFFFF,
        flashMode := 0, onMS := 0, offMS := 0, brightnessMode := 0 }
      Dispatcher.initial 1 (by decide) rfl (by decide) rfl).1,
    ((generic_unreachable_suppresses_vendor_paths
      { env := exampleEnv none none none none none, light := 0, colorARGB := 0x00FFFFFF,
        flashMode := 0, onMS := 0, offMS := 0, brightnessMode := 0 }
      { env := exampleEnv (some 1) none none none none, light := 0, colorARGB := 0x00FFFFFF,
        flashMode := 0, onMS := 0, offMS := 0, brightnessMode := 0 }
      Dispatcher.initial 1 (by decide) rfl (by decide) rfl).2.1
        Dispatcher.initial rfl rfl).2.1⟩

/-- C7. Whatever the statics, the parameters and the outside world, one call
of `setLight_native` sends at most one set-light command (`setLightSec`,
`sehSetLight`, `HWsetLight` or the generic `setLight`), and the backend is
chosen in the fixed order Samsung 2.0, Samsung 3.0, Huawei, generic.  The
handles of the statics after the call are the ones the call tested.  A
`setLightSec` goes to the handle `sSecHal`.  A `sehSetLight` is sent only if
`sSecHal` is null, and only for light 0 with flash mode HARDWARE.  A
`HWsetLight` is sent only if moreover the Samsung 3.0 path did not apply, and
only for light 0 when type 260 is reported.  The generic `setLight` is sent
only if none of the three vendor paths applied. -/
theorem at_most_one_backend_in_order (env : Env) (s : Dispatcher)
    (light colorARGB flashMode onMS offMS brightnessMode : Int) :
    (commands
      (setLight_native env s light colorARGB flashMode onMS offMS brightnessMode).2).length
      ≤ 1 ∧
    (∀ h t st, Event.setLightSec h t st ∈
        (setLight_native env s light colorARGB flashMode onMS offMS brightnessMode).2 →
      (setLight_native env s light colorARGB flashMode onMS offMS brightnessMode).1.sSecHal =
        some h) ∧
    (∀ h t st, Event.sehSetLight h t st ∈
        (setLight_native env s light colorARGB flashMode onMS offMS brightnessMode).2 →
      (setLight_native env s light colorARGB flashMode onMS offMS brightnessMode).1.sSecHal =
        none ∧
      (setLight_native env s light colorARGB flashMode onMS offMS brightnessMode).1.sSehHal =
        some h ∧
      light = 0 ∧ flashMode = Flash.HARDWARE) ∧
    (∀ h t st, Event.HWsetLight h t st ∈
        (setLight_native env s light colorARGB flashMode onMS offMS brightnessMode).2 →
      (setLight_native env s light colorARGB flashMode onMS offMS brightnessMode).1.sSecHal =
        none ∧
      ¬ ((setLight_native env s light colorARGB flashMode onMS offMS
            brightnessMode).1.sSehHal ≠ none ∧
          light = 0 ∧ flashMode = Flash.HARDWARE) ∧
      (setLight_native env s light colorARGB flashMode onMS offMS brightnessMode).1.sHwHal =
        some h ∧
      light = 0 ∧ reports260 env = true) ∧
    (∀ h t st, Event.setLight h t st ∈
        (setLight_native env s light colorARGB flashMode onMS offMS brightnessMode).2 →
      (setLight_native env s light colorARGB flashMode onMS offMS brightnessMode).1.sSecHal =
        none ∧
      ¬ ((setLight_native env s light colorARGB flashMode onMS offMS
            brightnessMode).1.sSehHal ≠ none ∧
          light = 0 ∧ flashMode = Flash.HARDWARE) ∧
      ¬ ((setLight_native env s light colorARGB flashMode onMS offMS
            brightnessMode).1.sHwHal ≠ none ∧
          light = 0 ∧ reports260 env = true)) := by
  obtain ⟨h0, h1, h2, h3, h4⟩ :=
    chainOrder_outcome env s light colorARGB flashMode onMS offMS brightnessMode
  refine ⟨?_, ?_, ?_, ?_, ?_⟩
  · rw [setLight_native_commands]; exact h0
  · intro h t st hm
    rw [mem_outcome_iff (Event.setLightSec h t st) rfl] at hm
    rw [setLight_native_fst]
    exact h1 h t st hm
  · intro h t st hm
    rw [mem_outcome_iff (Event.sehSetLight h t st) rfl] at hm
    rw [setLight_native_fst]
    exact h2 h t st hm
  · intro h t st hm
    rw [mem_outcome_iff (Event.HWsetLight h t st) rfl] at hm
    rw [setLight_native_fst]
    exact h3 h t st hm
  · intro h t st hm
    rw [mem_outcome_iff (Event.setLight h t st) rfl] at hm
    rw [setLight_native_fst]
    exact h4 h t st hm


/-- C8. A valid request that neither Samsung path handled (the Samsung 2.0
service is absent and the Samsung 3.0 path does not apply), made when the
Huawei service resolves to `hw`.  The Huawei service is asked for its supported
types exactly when the light id is 0.  It is sent a command exactly when the
light id is 0 and type 260 is reported; the command is then
`HWsetLight(260, constructState((colorARGB & 0xff) << 4, flashMode, onMS,
offMS, brightnessMode))`, its colour lies in 0..4080, it is the only command
of the call and the generic service is not resolved.  Otherwise the generic
path is entered: the generic service is resolved and, when it resolves, it is
sent the state built from the original `colorARGB`. -/
theorem huawei_path (env : Env) (s : Dispatcher)
    (light colorARGB flashMode onMS offMS brightnessMode : Int) (hw : Handle)
    (hs : s.sLightSupported = true) (hsec : s.sSecTried = false) (hhw : s.sHwTried = false)
    (hv : (validate light flashMode brightnessMode).1 = true)
    (h1 : env.getServiceSec = none)
    (h2 : ¬ (env.getServiceSeh ≠ none ∧ light = 0 ∧ flashMode = Flash.HARDWARE))
    (h3 : env.getServiceHw = some hw) :
    (∀ h, Event.HWgetSupportedTypes h ∈
        (setLight_native env s light colorARGB flashMode onMS offMS brightnessMode).2 ↔
      h = hw ∧ light = 0) ∧
    ((∃ h t st, Event.HWsetLight h t st ∈
        (setLight_native env s light colorARGB flashMode onMS offMS brightnessMode).2) ↔
      light = 0 ∧ reports260 env = true) ∧
    (0 ≤ (constructState (Int.land colorARGB 0xff <<< (4 : Int)) flashMode onMS offMS
        brightnessMode).color ∧
      (constructState (Int.land colorARGB 0xff <<< (4 : Int)) flashMode onMS offMS
        brightnessMode).color ≤ 4080) ∧
    (light = 0 ∧ reports260 env = true →
      commands (setLight_native env s light colorARGB flashMode onMS offMS brightnessMode).2 =
        [Event.HWsetLight hw 260
          (constructState (Int.land colorARGB 0xff <<< (4 : Int)) flashMode onMS offMS
            brightnessMode)] ∧
      Event.getService ∉
        (setLight_native env s light colorARGB flashMode onMS offMS brightnessMode).2) ∧
    (¬ (light = 0 ∧ reports260 env = true) →
      Event.getService ∈
        (setLight_native env s light colorARGB flashMode onMS offMS brightnessMode).2 ∧
      commands (setLight_native env s light colorARGB flashMode onMS offMS brightnessMode).2 =
        match env.getService with
        | some hal =>
          [Event.setLight hal light
            (constructState colorARGB flashMode onMS offMS brightnessMode)]
        | none => []) := by
  have hev : (outcome env s light colorARGB flashMode onMS offMS brightnessMode).2 =
      [Event.getServiceSec, Event.getServiceSeh] ++ Event.getServiceHw ::
        (if light = 0 then
          Event.HWgetSupportedTypes hw ::
            (if reports260 env = true then
              [Event.HWsetLight hw 260
                (constructState (Int.land colorARGB 0xff <<< (4 : Int)) flashMode onMS offMS
                  brightnessMode)]
            else (genericOutcome env s light colorARGB flashMode onMS offMS brightnessMode).2)
        else (genericOutcome env s light colorARGB flashMode onMS offMS brightnessMode).2) := by
    have hp := hwOutcome_present env { s with sSecHal := none, sSehHal := env.getServiceSeh }
      light colorARGB flashMode onMS offMS brightnessMode hw hhw h3
    rw [outcome_past_vendorA env s _ _ _ _ _ _ hs hsec hv h1 h2, emit, hp]
    simp only [genericOutcome_snd env _ s]
  have hcol : (constructState (Int.land colorARGB 0xff <<< (4 : Int)) flashMode onMS offMS
      brightnessMode).color = colorARGB % 256 * 16 := by
    rw [constructState_color, hwBrightness_eq]
  simp only [mem_outcome_iff (Event.HWgetSupportedTypes _) rfl,
    mem_outcome_iff (Event.HWsetLight _ _ _) rfl, mem_outcome_iff Event.getService rfl,
    setLight_native_commands, hev, hcol]
  refine ⟨?_, ?_, by omega, ?_, ?_⟩
  · intro h
    by_cases hl : light = 0
    · cases hr : reports260 env <;> cases hg : env.getService <;>
        simp [hl, genericOutcome, hg, eq_comm]
    · cases hg : env.getService <;> simp [hl, genericOutcome, hg]
  · by_cases hl : light = 0
    · cases hr : reports260 env <;> cases hg : env.getService <;>
        simp [hl, genericOutcome, hg]
    · cases hg : env.getService <;> simp [hl, genericOutcome, hg]
  · rintro ⟨hl, hr⟩
    simp [hl, hr, commands, Event.isCommand]
  · intro hn
    by_cases hl : light = 0
    · have hr : reports260 env = false := by
        cases hr : reports260 env
        · rfl
        · exact absurd ⟨hl, hr⟩ hn
      cases hg : env.getService <;>
        simp [hl, hr, genericOutcome, hg, commands, Event.isCommand]
    · cases hg : env.getService <;> simp [hl, genericOutcome, hg, commands, Event.isCommand]

/-- Witness for C8: backlight, colour 0x00FFFFFF, the Huawei service present
(handle 3) and reporting the types 1 and 260. -/
theorem huawei_path_witness :
    commands (setLight_native (exampleEnv none none (some 3) (some 4) (some [1, 260]))
        Dispatcher.initial 0 0x00FFFFFF 0 0 0 0).2 =
      [Event.HWsetLight 3 260
        (constructState (Int.land 0x00FFFFFF 0xff <<< (4 : Int)) 0 0 0 0)] ∧
    Event.getService ∉
      (setLight_native (exampleEnv none none (some 3) (some 4) (some [1, 260]))
        Dispatcher.initial 0 0x00FFFFFF 0 0 0 0).2 :=
  (huawei_path (exampleEnv none none (some 3) (some 4) (some [1, 260])) Dispatcher.initial
    0 0x00FFFFFF 0 0 0 0 3 rfl rfl rfl (by decide) rfl (by decide) rfl).2.2.2.1
    ⟨rfl, by decide⟩


/-- C9. A valid request made while `sLightSupported` is true, when
`ISecLight::getService()` returns the service `hal` (the tried flag is clear,
as it is throughout the life of the process).  The events of the call are the
two Samsung resolutions, then `setLightSec(light, constructState(colorARGB,
flashMode, onMS, offMS, brightnessMode))` on `hal`, then only the log lines of
`processReturn` and of the timer: after the command no service is resolved,
queried or sent a command, whatever `setLightSec` returned.  The supported
flag stays true and the statics change only in the two Samsung handles. -/
theorem samsung_standard_handles_request (env : Env) (s : Dispatcher)
    (light colorARGB flashMode onMS offMS brightnessMode : Int) (hal : Handle)
    (hs : s.sLightSupported = true) (hsec : s.sSecTried = false)
    (hv : (validate light flashMode brightnessMode).1 = true)
    (h1 : env.getServiceSec = some hal) :
    (0 ≤ light ∧ light < LightType.COUNT) ∧
    (setLight_native env s light colorARGB flashMode onMS offMS brightnessMode).2 =
      [Event.getServiceSec, Event.getServiceSeh,
        Event.setLightSec hal light
          (constructState colorARGB flashMode onMS offMS brightnessMode)] ++
      (processReturn
          (env.setLightSec light (constructState colorARGB flashMode onMS offMS brightnessMode))
          light (constructState colorARGB flashMode onMS offMS brightnessMode) ++
        delayLog env).map Event.log ∧
    backendEvents
        (setLight_native env s light colorARGB flashMode onMS offMS brightnessMode).2 =
      [Event.getServiceSec, Event.getServiceSeh,
        Event.setLightSec hal light
          (constructState colorARGB flashMode onMS offMS brightnessMode)] ∧
    (setLight_native env s light colorARGB flashMode onMS offMS brightnessMode).1 =
      { s with sSecHal := some hal, sSehHal := env.getServiceSeh } ∧
    (setLight_native env s light colorARGB flashMode onMS offMS brightnessMode).1.sLightSupported
      = true := by
  refine ⟨((validate_fst_iff _ _ _).1 hv).1, ?_, ?_, ?_, ?_⟩
  · rw [setLight_native_eq]
    unfold vendorAPath vendorASend
    simp [hs, hv, hsec, h1, validate_snd_of_valid _ _ _ hv]
  · rw [setLight_native_backendEvents, outcome_sec _ _ _ _ _ _ _ _ hal hs hsec hv h1]
  · rw [setLight_native_fst, outcome_sec _ _ _ _ _ _ _ _ hal hs hsec hv h1]
  · rw [setLight_native_fst, outcome_sec _ _ _ _ _ _ _ _ hal hs hsec hv h1]
    exact hs

/-- Witness for C9: the notification light (id 4) with a timed flash, every
service present, the Samsung 2.0 service answering "light not supported". -/
theorem samsung_standard_handles_request_witness :
    (setLight_native
      { exampleEnv (some 1) (some 2) (some 3) (some 4) (some [260]) with
        setLightSec := fun _ _ => Return.ok Status.LIGHT_NOT_SUPPORTED }
      Dispatcher.initial 4 0x00FF0000 1 500 500 0).2 =
      [Event.getServiceSec, Event.getServiceSeh,
        Event.setLightSec 1 4
          { color := 0x00FF0000, flashMode := Flash.TIMED, flashOnMs := 500, flashOffMs := 500,
            brightnessMode := Brightness.USER },
        Event.log (Log.lightNotAvailable 4)] :=
  (samsung_standard_handles_request
    { exampleEnv (some 1) (some 2) (some 3) (some 4) (some [260]) with
      setLightSec := fun _ _ => Return.ok Status.LIGHT_NOT_SUPPORTED }
    Dispatcher.initial 4 0x00FF0000 1 500 500 0 1 rfl rfl (by decide) rfl).2.1

/-- C10. A valid request made while `sLightSupported` is true (tried flags
clear, as they are throughout the life of the process).  A `sehSetLight` is
sent if and only if the Samsung 2.0 service is absent, the Samsung 3.0 service
is present, the light id is 0 and the flash mode is HARDWARE.  In that case
the backend events of the call are the two Samsung resolutions and one
`sehSetLight` carrying a state with flash mode NONE, no flash timing, the
given brightness mode and `extendedBrightness` equal to `colorARGB`; neither
the Huawei nor the generic service is contacted.  When the Samsung 3.0 service
is present but the light id is not 0 or the flash mode is not HARDWARE, the
request goes on: the Huawei service is resolved and the call ends in a
`HWsetLight` or in the generic path. -/
theorem samsung_hardware_flash_path (env : Env) (s : Dispatcher)
    (light colorARGB flashMode onMS offMS brightnessMode : Int)
    (hs : s.sLightSupported = true) (hsec : s.sSecTried = false) (hhw : s.sHwTried = false)
    (hv : (validate light flashMode brightnessMode).1 = true) :
    ((∃ h t st, Event.sehSetLight h t st ∈
        (setLight_native env s light colorARGB flashMode onMS offMS brightnessMode).2) ↔
      env.getServiceSec = none ∧ env.getServiceSeh ≠ none ∧ light = 0 ∧
        flashMode = Flash.HARDWARE) ∧
    (∀ seh, env.getServiceSec = none → env.getServiceSeh = some seh → light = 0 →
      flashMode = Flash.HARDWARE →
      backendEvents
          (setLight_native env s light colorARGB flashMode onMS offMS brightnessMode).2 =
        [Event.getServiceSec, Event.getServiceSeh,
          Event.sehSetLight seh 0
            { color := 0, flashMode := Flash.NONE, flashOnMs := 0, flashOffMs := 0,
              brightnessMode := brightnessMode, extendedBrightness := colorARGB }]) ∧
    (env.getServiceSec = none → env.getServiceSeh ≠ none →
      ¬ (light = 0 ∧ flashMode = Flash.HARDWARE) →
      Event.getServiceHw ∈
          (setLight_native env s light colorARGB flashMode onMS offMS brightnessMode).2 ∧
        ((∃ h t st, Event.HWsetLight h t st ∈
            (setLight_native env s light colorARGB flashMode onMS offMS brightnessMode).2) ∨
          Event.getService ∈
            (setLight_native env s light colorARGB flashMode onMS offMS brightnessMode).2)) := by
  simp only [mem_outcome_iff (Event.sehSetLight _ _ _) rfl,
    mem_outcome_iff (Event.HWsetLight _ _ _) rfl, mem_outcome_iff Event.getService rfl,
    mem_outcome_iff Event.getServiceHw rfl, setLight_native_backendEvents]
  have happ : env.getServiceSec = none → ∀ seh, env.getServiceSeh = some seh → light = 0 →
      flashMode = Flash.HARDWARE →
      outcome env s light colorARGB flashMode onMS offMS brightnessMode =
        ({ s with sSecHal := none, sSehHal := some seh },
          [Event.getServiceSec, Event.getServiceSeh,
            Event.sehSetLight seh 0
              { color := 0, flashMode := Flash.NONE, flashOnMs := 0, flashOffMs := 0,
                brightnessMode := brightnessMode, extendedBrightness := colorARGB }]) := by
    intro h1 seh h2 hl hf
    subst hl hf
    unfold outcome vendorAOutcome vendorASendOutcome
    simp [hs, hv, hsec, h1, h2, emit]
  refine ⟨?_, ?_, ?_⟩
  · cases h1 : env.getServiceSec with
    | some sec =>
      rw [outcome_sec _ _ _ _ _ _ _ _ sec hs hsec hv h1]
      simp
    | none =>
      by_cases h2 : env.getServiceSeh ≠ none ∧ light = 0 ∧ flashMode = Flash.HARDWARE
      · obtain ⟨seh, hseh⟩ := Option.ne_none_iff_exists'.1 h2.1
        rw [happ h1 seh hseh h2.2.1 h2.2.2]
        simp [hseh, h2.2.1, h2.2.2]
      · rw [outcome_past_vendorA env s _ _ _ _ _ _ hs hsec hv h1 h2]
        have hno := hwOutcome_no_sehSetLight env
          { s with sSecHal := none, sSehHal := env.getServiceSeh }
          light colorARGB flashMode onMS offMS brightnessMode
        simp only [emit, List.mem_append, List.mem_cons, reduceCtorEq, List.not_mem_nil,
          or_self, false_or, hno, exists_false, true_and, false_iff]
        exact h2
  · intro seh h1 h2 hl hf
    rw [happ h1 seh h2 hl hf]
  · intro h1 h2 hc
    have hna : ¬ (env.getServiceSeh ≠ none ∧ light = 0 ∧ flashMode = Flash.HARDWARE) :=
      fun h => hc h.2
    rw [outcome_past_vendorA env s _ _ _ _ _ _ hs hsec hv h1 hna]
    have hcont := hwOutcome_continues env
      { s with sSecHal := none, sSehHal := env.getServiceSeh }
      light colorARGB flashMode onMS offMS brightnessMode hhw
    simp only [emit, List.mem_append, List.mem_cons, reduceCtorEq, List.not_mem_nil, or_self,
      false_or]
    exact hcont

/-- Witness for C10: backlight with hardware flash, on 500, off 500, colour
0x00FFFFFF, the Samsung 2.0 service absent and the Samsung 3.0 service present
(handle 2), every other service present as well. -/
theorem samsung_hardware_flash_path_witness :
    backendEvents
        (setLight_native (exampleEnv none (some 2) (some 3) (some 4) (some [260]))
          Dispatcher.initial 0 0x00FFFFFF 2 500 500 0).2 =
      [Event.getServiceSec, Event.getServiceSeh,
        Event.sehSetLight 2 0
          { color := 0, flashMode := Flash.NONE, flashOnMs := 0, flashOffMs := 0,
            brightnessMode := 0, extendedBrightness := 0x00FFFFFF }] :=
  (samsung_hardware_flash_path (exampleEnv none (some 2) (some 3) (some 4) (some [260]))
    Dispatcher.initial 0 0x00FFFFFF 2 500 500 0 rfl rfl rfl (by decide)).2.1 2 rfl rfl rfl rfl

end LightsService
